import Mathlib

/-!
Verification of the osta.ee category scraper (`scraper.py`).

The script is a linear pipeline: pre-flight URL check, fetch page 1 of a
category, read the page count from page 1, fetch pages 2..N at
`baseUrl ++ "/page-" ++ i`, extract (title, price, img_href) records from each
page with BeautifulSoup-style selector lookups, then serialize the accumulated
list with `json.dump(..., indent=4)`.

The embedding below models:
  * the parsed HTML document as a rose tree (`Node`) with BeautifulSoup4
    `find` / `findAll` / `.text` / `.get` as `bsFind` / `bsFindAll` /
    `bsText` / `bsGet`;
  * Python exceptions (`AttributeError` on a missing node, `IndexError` on the
    fixed-position container lookup, `ValueError` from `int()`, and network
    failures from `requests.get`) as an explicit `ScrapeError` in `Except`;
  * the network as an oracle `fetch : String → Except ScrapeError Node`
    (requests.get returns a body for any HTTP status, so no status appears
    here) and the pre-flight `urllib.request.urlopen` as an oracle returning
    status, HTTP error, or network error;
  * the output file system as `String → Option String` (filename ↦ content);
  * `json.dump(product_list, file, indent=4)` as an exact renderer `pyJsonDump`
    over a small JSON value type, including Python's `ensure_ascii` escaping;
  * the `__main__` block as `osta_main`, returning the urlopen calls made, the
    listing-page fetch trace, the resulting file system, the process exit code
    and a symbolic outcome (`usage` = the usage hint was printed and the
    script fell off the end; `preflightExit` = `check_url` printed its
    diagnostic and called `sys.exit()`).
-/

/-- A parsed HTML document, as BeautifulSoup sees it: tags with attributes and
children, and navigable strings. -/
inductive Node where
  | text (s : String)
  | elem (tag : String) (attrs : List (String × String)) (children : List Node)

/-- First value bound to attribute key `k` (Python dict lookup on a tag's
attribute dict). -/
def lookupAttr (attrs : List (String × String)) (k : String) : Option String :=
  match attrs with
  | [] => none
  | (a, v) :: rest => if a = k then some v else lookupAttr rest k

/-- HTML whitespace, separating the tokens of a `class` attribute value. -/
def isWS (c : Char) : Bool :=
  (c = ' ') || (c = '\t') || (c = '\n') || (c = '\r') || (c = '\x0c')

/-- Split a character list on whitespace, dropping empty tokens. -/
def splitWSAux (cs : List Char) (cur : List Char) : List String :=
  match cs with
  | [] => if cur.isEmpty then [] else [String.mk cur.reverse]
  | c :: rest =>
    if isWS c then
      if cur.isEmpty then splitWSAux rest [] else
        String.mk cur.reverse :: splitWSAux rest []
    else splitWSAux rest (c :: cur)

/-- The whitespace-separated tokens of a `class` attribute value. -/
def classList (v : String) : List String := splitWSAux v.data []

/-- BeautifulSoup class matching for `find(tag, {"class": cl})`: the tag's
`class` attribute, read as a whitespace-separated list, contains `cl`. -/
def hasClass (attrs : List (String × String)) (cl : String) : Bool :=
  match lookupAttr attrs "class" with
  | none => false
  | some v => (classList v).contains cl

mutual

/-- All matches for `(tag, class)` in the subtree rooted at `n`, including `n`
itself, in document (preorder) order. -/
def bsFindFrom (t cl : String) (n : Node) : List Node :=
  match n with
  | .text _ => []
  | .elem tag attrs children =>
    (if tag = t && hasClass attrs cl then [Node.elem tag attrs children] else [])
      ++ bsFindFromList t cl children

/-- `bsFindFrom` over a list of sibling subtrees, left to right. -/
def bsFindFromList (t cl : String) (ns : List Node) : List Node :=
  match ns with
  | [] => []
  | c :: cs => bsFindFrom t cl c ++ bsFindFromList t cl cs

end

/-- BeautifulSoup `n.findAll(t, {"class": cl})`: every descendant of `n` (not
`n` itself) with tag `t` whose class list contains `cl`, in document order. -/
def bsFindAll (n : Node) (t cl : String) : List Node :=
  match n with
  | .text _ => []
  | .elem _ _ children => bsFindFromList t cl children

/-- BeautifulSoup `n.find(t, {"class": cl})`: the first such descendant, or
`None`. -/
def bsFind (n : Node) (t cl : String) : Option Node :=
  (bsFindAll n t cl).head?

mutual

/-- BeautifulSoup `.text`: concatenation of every string in the subtree, in
document order. -/
def bsText (n : Node) : String :=
  match n with
  | .text s => s
  | .elem _ _ children => bsTextList children

/-- `bsText` over sibling subtrees, left to right. -/
def bsTextList (ns : List Node) : String :=
  match ns with
  | [] => ""
  | c :: cs => bsText c ++ bsTextList cs

end

/-- BeautifulSoup `tag.get(k)`: the attribute value, or `None` if absent. -/
def bsGet (n : Node) (k : String) : Option String :=
  match n with
  | .text _ => none
  | .elem _ attrs _ => lookupAttr attrs k

/-- Python exceptions the script can raise mid-run; any of them aborts the
process (nothing catches them past the pre-flight check). -/
inductive ScrapeError where
  | fetchError
  | attributeError
  | indexError
  | valueError
deriving DecidableEq, Repr

/-- Characters stripped by Python `int(...)` before parsing. -/
def trimWS (cs : List Char) : List Char :=
  ((cs.dropWhile isWS).reverse.dropWhile isWS).reverse

/-- Parse a nonempty all-digit character list as a natural number. -/
def digitsToNat? (cs : List Char) : Option Nat :=
  match cs with
  | [] => none
  | _ =>
    if cs.all (fun c => c.isDigit) then
      some (cs.foldl (fun acc c => 10 * acc + (c.toNat - 48)) 0)
    else none

/-- Python `int(s)` on a decimal string: strip whitespace, optional sign,
digits; raises `ValueError` (here: `none`) otherwise. -/
def pyInt? (s : String) : Option Int :=
  match trimWS s.data with
  | '-' :: rest => (digitsToNat? rest).map (fun n => -(n : Int))
  | '+' :: rest => (digitsToNat? rest).map (fun n => (n : Int))
  | cs => (digitsToNat? cs).map (fun n => (n : Int))

/-- One harvested product: the dict built in `get_product_list_from_page_object`.
`title` and `img_href` come from `.get(...)` and may be `None`. -/
structure Record where
  title : Option String
  price : String
  img_href : Option String
deriving DecidableEq, Repr

/-- `get_sub_page_count`: `int(page.find("span", {"class": "page-count"}).text)`.
A missing span is an `AttributeError` (`.text` on `None`), a non-numeric text a
`ValueError`. -/
def get_sub_page_count (page_object : Node) : Except ScrapeError Int :=
  match bsFind page_object "span" "page-count" with
  | none => .error .attributeError
  | some n =>
    match pyInt? (bsText n) with
    | none => .error .valueError
    | some k => .ok k

/-- `get_product_objects_from_page`: take the element at fixed index 1 of
`page.findAll("ul", {"class": "js-main-offers-list"})` (an `IndexError` when
fewer than two match) and return its `figure.offer-thumb` descendants. -/
def get_product_objects_from_page (page_object : Node) : Except ScrapeError (List Node) :=
  let main_product_lists := bsFindAll page_object "ul" "js-main-offers-list"
  match main_product_lists.get? 1 with
  | none => .error .indexError
  | some ul => .ok (bsFindAll ul "figure" "offer-thumb")

/-- `get_product_title`: the `title` attribute (not the inner text) of the
`p.offer-thumb__title` node; `AttributeError` if the node is absent. -/
def get_product_title (product_page_object : Node) : Except ScrapeError (Option String) :=
  match bsFind product_page_object "p" "offer-thumb__title" with
  | none => .error .attributeError
  | some t => .ok (bsGet t "title")

/-- `get_product_price`: the inner text of the `span.price-cp` node;
`AttributeError` if the node is absent. -/
def get_product_price (product_page_object : Node) : Except ScrapeError String :=
  match bsFind product_page_object "span" "price-cp" with
  | none => .error .attributeError
  | some s => .ok (bsText s)

/-- `get_product_img_href`: the `data-original` attribute (not the visible
`src`) of the `a.lazy` anchor inside the `figure.offer-thumb__image` container;
`AttributeError` if either node is absent. -/
def get_product_img_href (product_page_object : Node) : Except ScrapeError (Option String) :=
  match bsFind product_page_object "figure" "offer-thumb__image" with
  | none => .error .attributeError
  | some fig =>
    match bsFind fig "a" "lazy" with
    | none => .error .attributeError
    | some a => .ok (bsGet a "data-original")

/-- The dict literal built per product object, fields evaluated in source
order (title, price, img_href); the first exception aborts. -/
def build_product (product_object : Node) : Except ScrapeError Record :=
  match get_product_title product_object with
  | .error e => .error e
  | .ok t =>
    match get_product_price product_object with
    | .error e => .error e
    | .ok pr =>
      match get_product_img_href product_object with
      | .error e => .error e
      | .ok im => .ok ⟨t, pr, im⟩

/-- The accumulation loop of `get_product_list_from_page_object`, in page
order. -/
def build_products (objs : List Node) : Except ScrapeError (List Record) :=
  match objs with
  | [] => .ok []
  | o :: os =>
    match build_product o with
    | .error e => .error e
    | .ok r =>
      match build_products os with
      | .error e => .error e
      | .ok rs => .ok (r :: rs)

/-- `get_product_list_from_page_object`: extract one `Record` per product
object found on the page. -/
def get_product_list_from_page_object (page_object : Node) : Except ScrapeError (List Record) :=
  match get_product_objects_from_page page_object with
  | .error e => .error e
  | .ok objs => build_products objs

/-- `get_page_object_from_url`: `requests.get(url)` + parse, i.e. one
application of the network oracle. A network-level failure raises; any HTTP
response, whatever its status, yields a parsed page. -/
def get_page_object_from_url (fetch : String → Except ScrapeError Node) (url : String) :
    Except ScrapeError Node :=
  fetch url

/-- The URL of listing page `i` (for `i ≥ 2`): `f"{category_url}/page-{i}"`. -/
def pageUrl (category_url : String) (i : Nat) : String :=
  category_url ++ "/page-" ++ toString i

/-- `[a, a+1, ..., a+k-1]`: the successive page indices produced by a Python
`range`. -/
def pageList (a k : Nat) : List Nat :=
  match k with
  | 0 => []
  | k + 1 => a :: pageList (a + 1) k

/-- `range(2, page_count + 1)`: the page indices fetched after page 1. -/
def pageNums (page_count : Int) : List Nat :=
  pageList 2 (page_count - 1).toNat

/-- The pages 2..N loop of `scrape_product_category`: fetch each page URL in
order, extract its records, append. Returns the list of URLs actually fetched
(a failing fetch is still a fetch; later URLs are never reached) together with
the accumulated records or the aborting exception. -/
def scrape_pages (fetch : String → Except ScrapeError Node) (category_url : String)
    (nums : List Nat) : List String × Except ScrapeError (List Record) :=
  match nums with
  | [] => ([], .ok [])
  | i :: rest =>
    let u := pageUrl category_url i
    match get_page_object_from_url fetch u with
    | .error e => ([u], .error e)
    | .ok page =>
      match get_product_list_from_page_object page with
      | .error e => ([u], .error e)
      | .ok recs =>
        let tailRun := scrape_pages fetch category_url rest
        (u :: tailRun.1,
         match tailRun.2 with
         | .error e => .error e
         | .ok more => .ok (recs ++ more))

/-- Lines 35-48 of `scrape_product_category`: fetch the bare category URL as
page 1, read the page count once from it, extract page 1's records, then run
the pages 2..N loop. First component: the listing-page URLs fetched, in
order; second: the accumulated records, or the exception that aborted the
run. The write call (line 53) is modeled downstream in `run_with_sink`. -/
def scrape_product_category (fetch : String → Except ScrapeError Node)
    (category_url : String) : List String × Except ScrapeError (List Record) :=
  match get_page_object_from_url fetch category_url with
  | .error e => ([category_url], .error e)
  | .ok entry_page_object =>
    match get_sub_page_count entry_page_object with
    | .error e => ([category_url], .error e)
    | .ok page_count =>
      match get_product_list_from_page_object entry_page_object with
      | .error e => ([category_url], .error e)
      | .ok first =>
        let rest := scrape_pages fetch category_url (pageNums page_count)
        (category_url :: rest.1,
         match rest.2 with
         | .error e => .error e
         | .ok more => .ok (first ++ more))

/-- A JSON value, as `json.dump` receives it from this script (lists, string
dicts, strings, and `None`). -/
inductive JVal where
  | null
  | str (s : String)
  | arr (elems : List JVal)
  | obj (fields : List (String × JVal))

/-- `n` spaces: the indentation unit of `json.dump(..., indent=4)` repeated. -/
def spaces (n : Nat) : String := String.mk (List.replicate n ' ')

/-- Lowercase hex digit, as in Python's `\uXXXX` escapes. -/
def hexDigit (n : Nat) : Char :=
  if n < 10 then Char.ofNat (48 + n) else Char.ofNat (87 + n)

/-- Four lowercase hex digits. -/
def hex4 (n : Nat) : String :=
  String.mk [hexDigit (n / 4096 % 16), hexDigit (n / 256 % 16),
             hexDigit (n / 16 % 16), hexDigit (n % 16)]

/-- Python `json` string escaping with the default `ensure_ascii=True`: the
two-character escapes for quote, backslash and common control characters, and
`\uXXXX` (a surrogate pair above the BMP) for every character outside
`0x20..0x7e`. -/
def escapeChar (c : Char) : String :=
  if c = '"' then "\\\""
  else if c = '\\' then "\\\\"
  else if c = '\n' then "\\n"
  else if c = '\t' then "\\t"
  else if c = '\r' then "\\r"
  else if c = Char.ofNat 8 then "\\b"
  else if c = Char.ofNat 12 then "\\f"
  else if c.toNat < 32 || 126 < c.toNat then
    if c.toNat < 65536 then "\\u" ++ hex4 c.toNat
    else
      let v := c.toNat - 65536
      "\\u" ++ hex4 (55296 + v / 1024) ++ "\\u" ++ hex4 (56320 + v % 1024)
  else String.mk [c]

/-- Escape a whole string for a JSON string literal. -/
def escapeStr (s : String) : String :=
  (s.data.map escapeChar).foldr (fun a b => a ++ b) ""

/-- A JSON string literal: quotes around the escaped content. -/
def jquote (s : String) : String := "\"" ++ escapeStr s ++ "\""

/-- Join with a separator (`",\n".join` in the serializer). -/
def joinSep (sep : String) (xs : List String) : String :=
  match xs with
  | [] => ""
  | [x] => x
  | x :: y :: rest => x ++ sep ++ joinSep sep (y :: rest)

mutual

/-- Python `json.dump(v, file, indent=4)` rendering at nesting depth `k`:
empty containers render closed; nonempty containers put each member on its own
line indented by `4 * (k + 1)` spaces, separated by `",\n"`, with the closing
bracket indented by `4 * k`; dict keys are followed by `": "`. -/
def render (k : Nat) (v : JVal) : String :=
  match v with
  | .null => "null"
  | .str s => jquote s
  | .arr [] => "[]"
  | .arr (x :: xs) =>
    "[\n" ++ joinSep ",\n" (renderElems (k + 1) (x :: xs)) ++ "\n" ++ spaces (4 * k) ++ "]"
  | .obj [] => "\x7b\x7d"
  | .obj (f :: fs) =>
    "\x7b\n" ++ joinSep ",\n" (renderFields (k + 1) (f :: fs)) ++ "\n" ++ spaces (4 * k) ++ "\x7d"

/-- Array elements, each prefixed by its indentation. -/
def renderElems (k : Nat) (vs : List JVal) : List String :=
  match vs with
  | [] => []
  | x :: xs => (spaces (4 * k) ++ render k x) :: renderElems k xs

/-- Object members, each `"key": value` prefixed by its indentation. -/
def renderFields (k : Nat) (fs : List (String × JVal)) : List String :=
  match fs with
  | [] => []
  | (key, v) :: rest =>
    (spaces (4 * k) ++ jquote key ++ ": " ++ render k v) :: renderFields k rest

end

/-- `json.dump(v, file, indent=4)`: render at top level. -/
def pyJsonDump (v : JVal) : String := render 0 v

/-- A Python value that may be `None` (a `.get(...)` result), as JSON. -/
def jOptStr : Option String → JVal
  | none => .null
  | some s => .str s

/-- One product dict as JSON: insertion order of the dict literal in
`get_product_list_from_page_object` — title, price, img_href. -/
def recordToJVal (r : Record) : JVal :=
  .obj [("title", jOptStr r.title), ("price", .str r.price),
        ("img_href", jOptStr r.img_href)]

/-- The keys of a JSON object, in order. -/
def jvalKeys : JVal → List String
  | .obj fields => fields.map (fun f => f.1)
  | _ => []

/-- `write_product_list_to_json_file`: `open(filename, "w")` truncates the
destination, then `json.dump(product_list, file, indent=4)` writes the whole
list as one JSON array. The file system maps filenames to contents. -/
def write_product_list_to_json_file (product_list : List Record) (filename : String)
    (files : String → Option String) : String → Option String :=
  fun n =>
    if n = filename then some (pyJsonDump (.arr (product_list.map recordToJVal)))
    else files n

/-- Line 53 of `scrape_product_category` in context: the sink write runs only
when the whole fetch-and-extract pipeline returned normally; any exception
propagates before the file is ever opened, leaving the file system as it
was. -/
def run_with_sink (fetch : String → Except ScrapeError Node) (category_url filename : String)
    (files : String → Option String) : String → Option String :=
  match (scrape_product_category fetch category_url).2 with
  | .ok l => write_product_list_to_json_file l filename files
  | .error _ => files

/-- What `urllib.request.urlopen(url)` does in `check_url`: returns a status
code, raises `urllib.error.HTTPError` (an HTTP error status), or raises some
other network error (`URLError` etc., not an `HTTPError`). -/
inductive UrlOpenResult where
  | ok (code : Nat)
  | httpError (code : Nat)
  | netError
deriving DecidableEq, Repr

/-- The three ways `check_url` can leave the process. -/
inductive CheckOutcome where
  | passed
  | exitedHttpError
  | raisedNetError
deriving DecidableEq, Repr

/-- `check_url`: one `urlopen` call; on `HTTPError` it prints the diagnostic
and calls `sys.exit()` (exit code 0); any other exception propagates
unhandled; otherwise control returns to the caller. -/
def check_url (urlopen : String → UrlOpenResult) (url : String) : CheckOutcome :=
  match urlopen url with
  | .ok _ => .passed
  | .httpError _ => .exitedHttpError
  | .netError => .raisedNetError

/-- How a process run ends: `usage` = the usage hint was printed and the
script fell off the end; `preflightExit` = `check_url` printed its diagnostic
and called `sys.exit()`; `preflightCrash` = an uncaught exception inside
`check_url`; `scrapeCrash` = an uncaught exception during scraping or
writing; `completed` = full success. -/
inductive MainOutcome where
  | usage
  | preflightExit
  | preflightCrash
  | scrapeCrash
  | completed
deriving DecidableEq, Repr

/-- Everything observable about one process run: the `urlopen` calls made by
`check_url`, the listing-page URLs fetched by `requests.get`, the resulting
file system, the process exit code (0 for a normal end or a bare
`sys.exit()`, 1 for an uncaught exception), and the symbolic outcome. -/
structure MainResult where
  urlopenCalls : List String
  fetchCalls : List String
  files : String → Option String
  exitCode : Nat
  outcome : MainOutcome

/-- Python `sys.argv[1].lstrip("/")`: remove every leading slash. -/
def lstripSlashes (s : String) : String :=
  String.mk (s.data.dropWhile (fun c => c = '/'))

/-- The fixed base URL of the `__main__` block. -/
def base_url : String := "https://www.osta.ee/kategooria/"

/-- The `__main__` block: read `category` (argv[1], leading slashes stripped;
empty when absent) and `output_filename` (argv[2], default `products.json`);
with no category, print the usage hint and fall off the end; otherwise build
`full_url`, run `check_url`, and on a passed check run
`scrape_product_category(full_url, output_filename)`. `argv` is the full
`sys.argv`, program name included. -/
def osta_main (argv : List String) (urlopen : String → UrlOpenResult)
    (fetch : String → Except ScrapeError Node)
    (files : String → Option String) : MainResult :=
  let category := if 2 ≤ argv.length then lstripSlashes (argv.getD 1 "") else ""
  let output_filename := if 3 ≤ argv.length then argv.getD 2 "" else "products.json"
  if category = "" then
    ⟨[], [], files, 0, .usage⟩
  else
    let full_url := base_url ++ category
    match check_url urlopen full_url with
    | .exitedHttpError => ⟨[full_url], [], files, 0, .preflightExit⟩
    | .raisedNetError => ⟨[full_url], [], files, 1, .preflightCrash⟩
    | .passed =>
      let run := scrape_product_category fetch full_url
      ⟨[full_url], run.1, run_with_sink fetch full_url output_filename files,
       match run.2 with | .ok _ => 0 | .error _ => 1,
       match run.2 with | .ok _ => .completed | .error _ => .scrapeCrash⟩

/-! ## Unfolding lemmas for the pagination loop -/

/-- The empty loop performs no fetch and yields no records. -/
theorem scrape_pages_nil (fetch : String → Except ScrapeError Node) (category_url : String) :
    scrape_pages fetch category_url [] = ([], .ok []) := rfl

/-- Loop step when the fetch of page `i` raises: page `i`'s URL was fetched,
the loop aborts. -/
theorem scrape_pages_cons_fetch_error (fetch : String → Except ScrapeError Node)
    (category_url : String) (i : Nat) (rest : List Nat) (e : ScrapeError)
    (hf : fetch (pageUrl category_url i) = .error e) :
    scrape_pages fetch category_url (i :: rest) = ([pageUrl category_url i], .error e) := by
  simp [scrape_pages, get_page_object_from_url, hf]

/-- Loop step when page `i` fetches but its extraction raises. -/
theorem scrape_pages_cons_extract_error (fetch : String → Except ScrapeError Node)
    (category_url : String) (i : Nat) (rest : List Nat) (page : Node) (e : ScrapeError)
    (hf : fetch (pageUrl category_url i) = .ok page)
    (hx : get_product_list_from_page_object page = .error e) :
    scrape_pages fetch category_url (i :: rest) = ([pageUrl category_url i], .error e) := by
  simp [scrape_pages, get_page_object_from_url, hf, hx]

/-- Loop step when page `i` fetches and extracts: its records precede whatever
the remaining pages accumulate. -/
theorem scrape_pages_cons_ok (fetch : String → Except ScrapeError Node)
    (category_url : String) (i : Nat) (rest : List Nat) (page : Node) (recs : List Record)
    (hf : fetch (pageUrl category_url i) = .ok page)
    (hx : get_product_list_from_page_object page = .ok recs) :
    scrape_pages fetch category_url (i :: rest)
      = (pageUrl category_url i :: (scrape_pages fetch category_url rest).1,
         match (scrape_pages fetch category_url rest).2 with
         | .error e => .error e
         | .ok more => .ok (recs ++ more)) := by
  simp [scrape_pages, get_page_object_from_url, hf, hx]

/-- Run shape when the page 1 fetch raises. -/
theorem scrape_cat_fetch_error (fetch : String → Except ScrapeError Node)
    (category_url : String) (e : ScrapeError)
    (h1 : fetch category_url = .error e) :
    scrape_product_category fetch category_url = ([category_url], .error e) := by
  simp [scrape_product_category, get_page_object_from_url, h1]

/-- Run shape when page 1 fetches but the page-count read raises. -/
theorem scrape_cat_count_error (fetch : String → Except ScrapeError Node)
    (category_url : String) (entry : Node) (e : ScrapeError)
    (h1 : fetch category_url = .ok entry)
    (h2 : get_sub_page_count entry = .error e) :
    scrape_product_category fetch category_url = ([category_url], .error e) := by
  simp [scrape_product_category, get_page_object_from_url, h1, h2]

/-- Run shape when page 1 fetches and the count is read but page 1's
extraction raises. -/
theorem scrape_cat_extract_error (fetch : String → Except ScrapeError Node)
    (category_url : String) (entry : Node) (n : Int) (e : ScrapeError)
    (h1 : fetch category_url = .ok entry)
    (h2 : get_sub_page_count entry = .ok n)
    (h3 : get_product_list_from_page_object entry = .error e) :
    scrape_product_category fetch category_url = ([category_url], .error e) := by
  simp [scrape_product_category, get_page_object_from_url, h1, h2, h3]

/-- Run shape when page 1 succeeds completely: page 1's records precede the
loop's, and the trace is page 1's URL followed by the loop's trace. -/
theorem scrape_cat_ok (fetch : String → Except ScrapeError Node)
    (category_url : String) (entry : Node) (n : Int) (first : List Record)
    (h1 : fetch category_url = .ok entry)
    (h2 : get_sub_page_count entry = .ok n)
    (h3 : get_product_list_from_page_object entry = .ok first) :
    scrape_product_category fetch category_url
      = (category_url :: (scrape_pages fetch category_url (pageNums n)).1,
         match (scrape_pages fetch category_url (pageNums n)).2 with
         | .error e => .error e
         | .ok more => .ok (first ++ more)) := by
  simp [scrape_product_category, get_page_object_from_url, h1, h2, h3]

/-- The URLs fetched by the pages 2..N loop form a prefix of the full planned
URL sequence: a failure stops the loop, it never skips ahead or rewrites a
URL. -/
theorem scrape_pages_trace_le (fetch : String → Except ScrapeError Node)
    (category_url : String) :
    ∀ nums : List Nat, ∃ t, (scrape_pages fetch category_url nums).1 ++ t
      = nums.map (pageUrl category_url) := by
  intro nums
  induction nums with
  | nil => exact ⟨[], rfl⟩
  | cons i rest ih =>
    cases hf : fetch (pageUrl category_url i) with
    | error e =>
      rw [scrape_pages_cons_fetch_error fetch category_url i rest e hf]
      exact ⟨rest.map (pageUrl category_url), by simp⟩
    | ok page =>
      cases hx : get_product_list_from_page_object page with
      | error e =>
        rw [scrape_pages_cons_extract_error fetch category_url i rest page e hf hx]
        exact ⟨rest.map (pageUrl category_url), by simp⟩
      | ok recs =>
        rw [scrape_pages_cons_ok fetch category_url i rest page recs hf hx]
        obtain ⟨t, ht⟩ := ih
        exact ⟨t, by simp [ht]⟩

/-- When the pages 2..N loop returns normally, it fetched exactly the planned
URL sequence, in order. -/
theorem scrape_pages_trace_of_ok (fetch : String → Except ScrapeError Node)
    (category_url : String) :
    ∀ (nums : List Nat) (l : List Record),
      (scrape_pages fetch category_url nums).2 = .ok l →
      (scrape_pages fetch category_url nums).1 = nums.map (pageUrl category_url) := by
  intro nums
  induction nums with
  | nil => intro l _; rfl
  | cons i rest ih =>
    intro l h
    cases hf : fetch (pageUrl category_url i) with
    | error e =>
      rw [scrape_pages_cons_fetch_error fetch category_url i rest e hf] at h
      exact absurd h (by simp)
    | ok page =>
      cases hx : get_product_list_from_page_object page with
      | error e =>
        rw [scrape_pages_cons_extract_error fetch category_url i rest page e hf hx] at h
        exact absurd h (by simp)
      | ok recs =>
        rw [scrape_pages_cons_ok fetch category_url i rest page recs hf hx] at h ⊢
        simp only [List.map_cons, List.cons.injEq, true_and]
        cases h2 : (scrape_pages fetch category_url rest).2 with
        | error e => rw [h2] at h; exact absurd h (by simp)
        | ok more => exact ih more h2

/-- When the pages 2..N loop returns normally, every page in its range was
fetched and extracted successfully. -/
theorem scrape_pages_ok_all (fetch : String → Except ScrapeError Node)
    (category_url : String) :
    ∀ (nums : List Nat) (l : List Record),
      (scrape_pages fetch category_url nums).2 = .ok l →
      ∀ i ∈ nums, ∃ p r, fetch (pageUrl category_url i) = .ok p
        ∧ get_product_list_from_page_object p = .ok r := by
  intro nums
  induction nums with
  | nil => intro l _ i hi; exact absurd hi (by simp)
  | cons j rest ih =>
    intro l h i hi
    cases hf : fetch (pageUrl category_url j) with
    | error e =>
      rw [scrape_pages_cons_fetch_error fetch category_url j rest e hf] at h
      exact absurd h (by simp)
    | ok page =>
      cases hx : get_product_list_from_page_object page with
      | error e =>
        rw [scrape_pages_cons_extract_error fetch category_url j rest page e hf hx] at h
        exact absurd h (by simp)
      | ok recs =>
        rw [scrape_pages_cons_ok fetch category_url j rest page recs hf hx] at h
        rcases List.mem_cons.mp hi with hij | hir
        · exact ⟨page, recs, by rw [hij]; exact hf, hx⟩
        · cases h2 : (scrape_pages fetch category_url rest).2 with
          | error e => rw [h2] at h; exact absurd h (by simp)
          | ok more => exact ih more h2 i hir

/-- When every page in the range fetches and extracts successfully, the pages
2..N loop fetches exactly the planned URLs and accumulates the pages' record
lists in page order. -/
theorem scrape_pages_all_ok (fetch : String → Except ScrapeError Node)
    (category_url : String) (pages : Nat → Node) (recs : Nat → List Record) :
    ∀ nums : List Nat,
      (∀ i ∈ nums, fetch (pageUrl category_url i) = .ok (pages i)
        ∧ get_product_list_from_page_object (pages i) = .ok (recs i)) →
      scrape_pages fetch category_url nums
        = (nums.map (pageUrl category_url), .ok (nums.map recs).flatten) := by
  intro nums
  induction nums with
  | nil => intro _; rfl
  | cons i rest ih =>
    intro h
    obtain ⟨hf, hx⟩ := h i (by simp)
    have hrest := ih (fun j hj => h j (List.mem_cons_of_mem i hj))
    rw [scrape_pages_cons_ok fetch category_url i rest (pages i) (recs i) hf hx, hrest]
    simp

/-- `pageList a k` enumerates exactly the integers in `[a, a + k)`. -/
theorem pageList_mem : ∀ (k a i : Nat), i ∈ pageList a k ↔ a ≤ i ∧ i < a + k := by
  intro k
  induction k with
  | zero => intro a i; simp [pageList]
  | succ k ih =>
    intro a i
    simp only [pageList, List.mem_cons, ih (a + 1) i]
    omega

/-- `pageList a k` has length `k`. -/
theorem pageList_length : ∀ (k a : Nat), (pageList a k).length = k := by
  intro k
  induction k with
  | zero => intro a; rfl
  | succ k ih => intro a; simp [pageList, ih]

/-- For a positive page count `P`, the page index range `1..P` splits as page 1
followed by the loop range `2..P`. -/
theorem pageList_one_split (P : Nat) (hP : 1 ≤ P) :
    pageList 1 P = 1 :: pageList 2 (P - 1) := by
  cases P with
  | zero => exact absurd hP (by omega)
  | succ k => rfl

/-- For a natural page count, `pageNums` is the range `2..P`. -/
theorem pageNums_natCast (P : Nat) :
    pageNums (P : Int) = pageList 2 (P - 1) := by
  simp only [pageNums]
  congr 1
  omega

/-- Flattening a map of per-page record lists of constant length `I` yields
`count * I` records. -/
theorem flatten_map_length (recs : Nat → List Record) (I : Nat) :
    ∀ nums : List Nat, (∀ i ∈ nums, (recs i).length = I) →
      ((nums.map recs).flatten).length = nums.length * I := by
  intro nums
  induction nums with
  | nil => intro _; simp
  | cons i rest ih =>
    intro h
    simp only [List.map_cons, List.flatten_cons, List.length_append,
      List.length_cons, h i (by simp), ih (fun j hj => h j (by simp [hj]))]
    ring

/-! ## Concrete fixtures

Small pages in the site's markup shape, with deliberately different values in
the places the extractor must distinguish: the title attribute differs from
the title node's visible text, the anchor's `data-original` differs from the
nested `img`'s `src`, and the first `ul.js-main-offers-list` is a decoy whose
items differ from the second's. -/

/-- One product container in the site's shape. -/
def figProduct (t pr im : String) : Node :=
  .elem "figure" [("class", "offer-thumb")] [
    .elem "p" [("class", "offer-thumb__title"), ("title", t)] [.text "visible text"],
    .elem "span" [("class", "price-cp")] [.text pr],
    .elem "figure" [("class", "offer-thumb__image")] [
      .elem "a" [("class", "lazy"), ("href", "#"), ("data-original", im)] [
        .elem "img" [("src", "placeholder.gif")] []]]]

/-- The record `figProduct t pr im` should extract to. -/
def figRecord (t pr im : String) : Record := ⟨some t, pr, some im⟩

/-- The decoy first offers list: matches the class marker but holds an
unrelated item. -/
def decoyUl : Node :=
  .elem "ul" [("class", "js-main-offers-list")] [figProduct "DECOY" "0 €" "decoy.jpg"]

/-- The real second offers list. -/
def mainUl (items : List Node) : Node :=
  .elem "ul" [("class", "grid js-main-offers-list")] items

/-- A listing page: decoy list, real list, page-count span. -/
def listingPage (count : String) (items : List Node) : Node :=
  .elem "html" [] [
    .elem "body" [] [
      decoyUl,
      mainUl items,
      .elem "span" [("class", "page-count")] [.text count]]]

/-- Page 1 of a two-page mocked category with one product per page. -/
def fixPage1 : Node := listingPage "2" [figProduct "A1" "1 €" "https://img/1.jpg"]

/-- Page 2 of the two-page mocked category. -/
def fixPage2 : Node := listingPage "2" [figProduct "B1" "2 €" "https://img/2.jpg"]

/-- A mocked network serving the two-page category at base URL `"cat"`. -/
def fetchTwo : String → Except ScrapeError Node := fun u =>
  if u = "cat" then .ok fixPage1
  else if u = "cat/page-2" then .ok fixPage2
  else .error .fetchError

/-- The per-index pages of the mocked category. -/
def fixPages : Nat → Node := fun i => if i = 1 then fixPage1 else fixPage2

/-- The per-index extracted records of the mocked category. -/
def fixRecs : Nat → List Record := fun i =>
  if i = 1 then [figRecord "A1" "1 €" "https://img/1.jpg"]
  else [figRecord "B1" "2 €" "https://img/2.jpg"]

/-- A page on which fewer than two elements match the offers-list marker. -/
def shortPage : Node :=
  .elem "html" [] [
    .elem "body" [] [
      decoyUl,
      .elem "span" [("class", "page-count")] [.text "4"]]]

/-- A network that always fails at the transport level. -/
def fetchDown : String → Except ScrapeError Node := fun _ => .error .fetchError

/-- An empty output directory. -/
def noFiles : String → Option String := fun _ => none

/-! ## Claims -/

/-- Claim C1: in every run, page 1 is fetched at the bare category URL, the
page count is read once from page 1 (`get_sub_page_count entry`), and the
listing-page URLs fetched never deviate from
`category_url :: [category_url ++ "/page-" ++ i | i ∈ 2..N]`: the trace is
always a prefix of that sequence, equals it exactly on a run that returns
normally, and when N = 1 the run performs exactly one listing-page fetch, so
no `"/page-"` suffix is ever constructed. -/
theorem pagination_url_sequence (fetch : String → Except ScrapeError Node)
    (category_url : String) (entry : Node) (n : Int)
    (h1 : fetch category_url = .ok entry)
    (h2 : get_sub_page_count entry = .ok n) :
    (∃ t, (scrape_product_category fetch category_url).1 ++ t
        = category_url :: (pageNums n).map (pageUrl category_url))
    ∧ (∀ l, (scrape_product_category fetch category_url).2 = .ok l →
        (scrape_product_category fetch category_url).1
          = category_url :: (pageNums n).map (pageUrl category_url))
    ∧ (n = 1 → (scrape_product_category fetch category_url).1 = [category_url]) := by
  refine ⟨?_, ?_, ?_⟩
  · cases h3 : get_product_list_from_page_object entry with
    | error e =>
      rw [scrape_cat_extract_error fetch category_url entry n e h1 h2 h3]
      exact ⟨(pageNums n).map (pageUrl category_url), by simp⟩
    | ok first =>
      rw [scrape_cat_ok fetch category_url entry n first h1 h2 h3]
      obtain ⟨t, ht⟩ := scrape_pages_trace_le fetch category_url (pageNums n)
      exact ⟨t, by simp [ht]⟩
  · intro l h
    cases h3 : get_product_list_from_page_object entry with
    | error e =>
      rw [scrape_cat_extract_error fetch category_url entry n e h1 h2 h3] at h
      exact absurd h (by simp)
    | ok first =>
      rw [scrape_cat_ok fetch category_url entry n first h1 h2 h3] at h ⊢
      cases hl : (scrape_pages fetch category_url (pageNums n)).2 with
      | error e => rw [hl] at h; exact absurd h (by simp)
      | ok more =>
        simp only [List.cons.injEq, true_and]
        exact scrape_pages_trace_of_ok fetch category_url (pageNums n) more hl
  · intro hn
    subst hn
    have hnums : pageNums 1 = [] := rfl
    cases h3 : get_product_list_from_page_object entry with
    | error e =>
      rw [scrape_cat_extract_error fetch category_url entry 1 e h1 h2 h3]
    | ok first =>
      rw [scrape_cat_ok fetch category_url entry 1 first h1 h2 h3, hnums,
        scrape_pages_nil]

/-- Witness for C1 on the two-page mocked category: the page count of page 1
is 2 and the full successful run fetches exactly `cat` then `cat/page-2`. -/
theorem pagination_url_sequence_witness :
    get_sub_page_count fixPage1 = .ok 2
    ∧ (scrape_product_category fetchTwo "cat").1 = ["cat", "cat/page-2"] := by
  constructor
  · rfl
  · have h := (pagination_url_sequence fetchTwo "cat" fixPage1 2 rfl rfl).2.1
      [figRecord "A1" "1 €" "https://img/1.jpg", figRecord "B1" "2 €" "https://img/2.jpg"]
      rfl
    exact h.trans rfl

/-- Claim C2: a run that raises on any page leaves the output file system
exactly as it was (the accumulated records are discarded, nothing reaches the
sink), and a run that reaches the sink write returned normally from every
page: page 1 fetched, its page count read, page 1 extracted, and every page in
2..N fetched and extracted. -/
theorem abort_discards_everything :
    (∀ (fetch : String → Except ScrapeError Node) (category_url filename : String)
        (files : String → Option String) (e : ScrapeError),
      (scrape_product_category fetch category_url).2 = .error e →
      run_with_sink fetch category_url filename files = files)
    ∧ (∀ (fetch : String → Except ScrapeError Node) (category_url : String)
        (l : List Record),
      (scrape_product_category fetch category_url).2 = .ok l →
      ∃ entry n first, fetch category_url = .ok entry
        ∧ get_sub_page_count entry = .ok n
        ∧ get_product_list_from_page_object entry = .ok first
        ∧ ∀ i ∈ pageNums n, ∃ p r, fetch (pageUrl category_url i) = .ok p
            ∧ get_product_list_from_page_object p = .ok r) := by
  constructor
  · intro fetch category_url filename files e h
    unfold run_with_sink
    rw [h]
  · intro fetch category_url l h
    cases h1 : fetch category_url with
    | error e =>
      rw [scrape_cat_fetch_error fetch category_url e h1] at h
      exact absurd h (by simp)
    | ok entry =>
      cases h2 : get_sub_page_count entry with
      | error e =>
        rw [scrape_cat_count_error fetch category_url entry e h1 h2] at h
        exact absurd h (by simp)
      | ok n =>
        cases h3 : get_product_list_from_page_object entry with
        | error e =>
          rw [scrape_cat_extract_error fetch category_url entry n e h1 h2 h3] at h
          exact absurd h (by simp)
        | ok first =>
          rw [scrape_cat_ok fetch category_url entry n first h1 h2 h3] at h
          cases hl : (scrape_pages fetch category_url (pageNums n)).2 with
          | error e => rw [hl] at h; exact absurd h (by simp)
          | ok more =>
            exact ⟨entry, n, first, rfl, h2, h3,
              scrape_pages_ok_all fetch category_url (pageNums n) more hl⟩

/-- Witness for C2: with the network down, the run aborts and an empty output
directory stays empty. -/
theorem abort_discards_everything_witness :
    (scrape_product_category fetchDown "cat").2 = .error .fetchError
    ∧ run_with_sink fetchDown "cat" "products.json" noFiles = noFiles := by
  constructor
  · rfl
  · exact abort_discards_everything.1 fetchDown "cat" "products.json" noFiles
      .fetchError rfl

/-- Claim C3: when the mocked source reports page count `P ≥ 1` from page 1
and every page `1..P` fetches and extracts to exactly `I` records, the run
returns the per-page record lists concatenated in page order (in-page order
preserved inside each `recs i`), and the total length is `P * I`. -/
theorem full_run_count_and_order (fetch : String → Except ScrapeError Node)
    (category_url : String) (P I : Nat) (pages : Nat → Node) (recs : Nat → List Record)
    (hP : 1 ≤ P)
    (h1 : fetch category_url = .ok (pages 1))
    (hcount : get_sub_page_count (pages 1) = .ok (P : Int))
    (hfetch : ∀ i, 2 ≤ i → i ≤ P → fetch (pageUrl category_url i) = .ok (pages i))
    (hex : ∀ i, 1 ≤ i → i ≤ P → get_product_list_from_page_object (pages i) = .ok (recs i))
    (hlen : ∀ i, 1 ≤ i → i ≤ P → (recs i).length = I) :
    (scrape_product_category fetch category_url).2
      = .ok ((pageList 1 P).map recs).flatten
    ∧ ((pageList 1 P).map recs).flatten.length = P * I := by
  have hx1 := hex 1 le_rfl hP
  have hloop := scrape_pages_all_ok fetch category_url pages recs (pageList 2 (P - 1))
    (fun i hi => by
      have hb := (pageList_mem (P - 1) 2 i).mp hi
      exact ⟨hfetch i hb.1 (by omega), hex i (by omega) (by omega)⟩)
  constructor
  · rw [scrape_cat_ok fetch category_url (pages 1) (P : Int) (recs 1) h1 hcount hx1,
      pageNums_natCast P, pageList_one_split P hP]
    rw [hloop]
    simp
  · rw [flatten_map_length recs I (pageList 1 P)
      (fun i hi => by
        have hb := (pageList_mem P 1 i).mp hi
        exact hlen i hb.1 (by omega)),
      pageList_length]

/-- Witness for C3 on the two-page, one-item-per-page mocked category: the run
returns page 1's record then page 2's, 2 × 1 records in all. -/
theorem full_run_count_and_order_witness :
    (scrape_product_category fetchTwo "cat").2
      = .ok [figRecord "A1" "1 €" "https://img/1.jpg",
             figRecord "B1" "2 €" "https://img/2.jpg"]
    ∧ ([figRecord "A1" "1 €" "https://img/1.jpg",
        figRecord "B1" "2 €" "https://img/2.jpg"] : List Record).length = 2 * 1 := by
  have h := full_run_count_and_order fetchTwo "cat" 2 1 fixPages fixRecs
    (by omega) rfl rfl
    (fun i h2 h2i => by
      have : i = 2 := by omega
      subst this
      rfl)
    (fun i hi1 hi2 => by
      interval_cases i <;> rfl)
    (fun i hi1 hi2 => by
      interval_cases i <;> rfl)
  exact ⟨h.1.trans rfl, by simp⟩

/-- Claim C4: the sink serializes the whole record list as one JSON array in
Python's `indent=4` rendering, every element an object whose keys are exactly
`title`, `price`, `img_href` in that order, at the destination name,
regardless of (i.e. overwriting) that file's previous content; other files are
untouched. -/
theorem write_json_array_format (product_list : List Record) (filename : String)
    (files : String → Option String) :
    write_product_list_to_json_file product_list filename files filename
      = some (pyJsonDump (.arr (product_list.map recordToJVal)))
    ∧ (∀ n, n ≠ filename → write_product_list_to_json_file product_list filename files n
        = files n)
    ∧ (∀ r : Record, jvalKeys (recordToJVal r) = ["title", "price", "img_href"]) := by
  refine ⟨?_, ?_, ?_⟩
  · simp [write_product_list_to_json_file]
  · intro n hn
    simp [write_product_list_to_json_file, hn]
  · intro r
    rfl

/-- Witness for C4: a one-record list with a non-ASCII price renders exactly
as Python's `json.dump(..., indent=4)` does (4-space indentation, `\u20ac`
escape), old content of the destination is overwritten in full, and other
files are untouched. -/
theorem write_json_array_format_witness :
    write_product_list_to_json_file [⟨some "A", "1 €", some "http://x/img.png"⟩]
        "out.json" (fun n => if n = "out.json" then some "old content" else none) "out.json"
      = some "[\n    \x7b\n        \"title\": \"A\",\n        \"price\": \"1 \\u20ac\",\n        \"img_href\": \"http://x/img.png\"\n    \x7d\n]"
    ∧ write_product_list_to_json_file [⟨some "A", "1 €", some "http://x/img.png"⟩]
        "out.json" (fun n => if n = "out.json" then some "old content" else none) "other"
      = none := by
  constructor
  · exact (write_json_array_format [⟨some "A", "1 €", some "http://x/img.png"⟩]
      "out.json" (fun n => if n = "out.json" then some "old content" else none)).1.trans
      (by rfl)
  · exact ((write_json_array_format [⟨some "A", "1 €", some "http://x/img.png"⟩]
      "out.json" (fun n => if n = "out.json" then some "old content" else none)).2.1
      "other" (by decide)).trans (by decide)

/-- Claim C6: record extraction takes the container at fixed position 1 (the
second match, not the first and not a uniqueness-checked one) of the
`ul.js-main-offers-list` matches and enumerates its `figure.offer-thumb`
items; per item the title is the `title` attribute of the
`p.offer-thumb__title` node (not its inner text), the price is the inner text
of the `span.price-cp` node, and the image reference is the `data-original`
data-attribute (not a visible `src`) of the `a.lazy` anchor nested inside the
`figure.offer-thumb__image` container. -/
theorem extractor_selector_policy (page : Node) (uls : List Node)
    (hul : bsFindAll page "ul" "js-main-offers-list" = uls)
    (h2 : 1 < uls.length)
    (prod tN sN figN aN : Node)
    (ht : bsFind prod "p" "offer-thumb__title" = some tN)
    (hs : bsFind prod "span" "price-cp" = some sN)
    (hf : bsFind prod "figure" "offer-thumb__image" = some figN)
    (ha : bsFind figN "a" "lazy" = some aN) :
    get_product_objects_from_page page
      = .ok (bsFindAll (uls.get ⟨1, h2⟩) "figure" "offer-thumb")
    ∧ get_product_title prod = .ok (bsGet tN "title")
    ∧ get_product_price prod = .ok (bsText sN)
    ∧ get_product_img_href prod = .ok (bsGet aN "data-original") := by
  refine ⟨?_, ?_, ?_, ?_⟩
  · simp only [get_product_objects_from_page, hul, List.get?_eq_get h2]
  · simp only [get_product_title, ht]
  · simp only [get_product_price, hs]
  · simp only [get_product_img_href, hf, ha]

/-- Witness for C6 on a page whose decoy first list, distinct title attribute
vs. visible text, and distinct `data-original` vs. `src` separate the right
readings from the wrong ones: extraction picks the second list's item and the
attribute-based values. -/
theorem extractor_selector_policy_witness :
    get_product_objects_from_page fixPage1
      = .ok [figProduct "A1" "1 €" "https://img/1.jpg"]
    ∧ get_product_title (figProduct "A1" "1 €" "https://img/1.jpg") = .ok (some "A1")
    ∧ bsText (.elem "p" [("class", "offer-thumb__title"), ("title", "A1")]
        [.text "visible text"]) = "visible text"
    ∧ get_product_price (figProduct "A1" "1 €" "https://img/1.jpg") = .ok "1 €"
    ∧ get_product_img_href (figProduct "A1" "1 €" "https://img/1.jpg")
      = .ok (some "https://img/1.jpg") := by
  have h := extractor_selector_policy fixPage1
    [decoyUl, mainUl [figProduct "A1" "1 €" "https://img/1.jpg"]] rfl
    (by decide)
    (figProduct "A1" "1 €" "https://img/1.jpg")
    (.elem "p" [("class", "offer-thumb__title"), ("title", "A1")] [.text "visible text"])
    (.elem "span" [("class", "price-cp")] [.text "1 €"])
    (.elem "figure" [("class", "offer-thumb__image")] [
      .elem "a" [("class", "lazy"), ("href", "#"), ("data-original", "https://img/1.jpg")] [
        .elem "img" [("src", "placeholder.gif")] []]])
    (.elem "a" [("class", "lazy"), ("href", "#"), ("data-original", "https://img/1.jpg")] [
      .elem "img" [("src", "placeholder.gif")] []])
    rfl rfl rfl rfl
  exact ⟨h.1.trans rfl, h.2.1.trans rfl, rfl, h.2.2.1.trans rfl, h.2.2.2.trans rfl⟩

/-- Claim C9: on any page where fewer than two elements match the
`js-main-offers-list` marker, the fixed-index lookup raises `IndexError`:
extraction returns that error (never a fallback to the first container, never
an empty list), and a run whose category page is such a page aborts with the
sink untouched. -/
theorem short_container_list_aborts (page : Node)
    (h : (bsFindAll page "ul" "js-main-offers-list").length < 2) :
    get_product_objects_from_page page = .error .indexError
    ∧ get_product_list_from_page_object page = .error .indexError
    ∧ (∀ (fetch : String → Except ScrapeError Node) (category_url filename : String)
        (files : String → Option String),
      fetch category_url = .ok page →
      run_with_sink fetch category_url filename files = files) := by
  have hnone : (bsFindAll page "ul" "js-main-offers-list").get? 1 = none :=
    List.get?_eq_none.mpr (by omega)
  have hobjs : get_product_objects_from_page page = .error .indexError := by
    simp only [get_product_objects_from_page, hnone]
  have hlist : get_product_list_from_page_object page = .error .indexError := by
    simp only [get_product_list_from_page_object, hobjs]
  refine ⟨hobjs, hlist, ?_⟩
  intro fetch category_url filename files hfetch
  unfold run_with_sink
  cases h2 : get_sub_page_count page with
  | error e => rw [scrape_cat_count_error fetch category_url page e hfetch h2]
  | ok n =>
    rw [scrape_cat_extract_error fetch category_url page n .indexError hfetch h2 hlist]

/-- Witness for C9: `shortPage` has exactly one matching container, so its
extraction raises `IndexError` and a run against it leaves the empty output
directory empty. -/
theorem short_container_list_aborts_witness :
    get_product_list_from_page_object shortPage = .error .indexError
    ∧ run_with_sink (fun _ => .ok shortPage) "cat" "products.json" noFiles = noFiles := by
  have h := short_container_list_aborts shortPage (by decide)
  exact ⟨h.2.1, h.2.2 (fun _ => .ok shortPage) "cat" "products.json" noFiles rfl⟩

/-! ## Unfolding lemmas for the `__main__` block -/

/-- With a single (program-name only) argument vector, the script prints the
usage hint and falls off the end: no urlopen call, no fetch, files and exit
code untouched. -/
theorem osta_main_no_category (prog : String) (urlopen : String → UrlOpenResult)
    (fetch : String → Except ScrapeError Node) (files : String → Option String) :
    osta_main [prog] urlopen fetch files = ⟨[], [], files, 0, .usage⟩ := rfl

/-- A category argument that strips to the empty string behaves exactly like
an absent one: the usage path. -/
theorem osta_main_cons_usage (prog s : String) (rest : List String)
    (urlopen : String → UrlOpenResult)
    (fetch : String → Except ScrapeError Node) (files : String → Option String)
    (hcat : lstripSlashes s = "") :
    osta_main (prog :: s :: rest) urlopen fetch files = ⟨[], [], files, 0, .usage⟩ := by
  simp only [osta_main, List.length_cons, List.length_nil, List.getD_cons_succ,
    List.getD_cons_zero]
  norm_num [hcat]

/-- Shape of a two-argument run with a nonempty category: pre-flight check on
`base_url ++ category`, then (only if it passes) the scrape with the default
output filename `products.json`. -/
theorem osta_main_two (prog s : String) (urlopen : String → UrlOpenResult)
    (fetch : String → Except ScrapeError Node) (files : String → Option String)
    (hcat : lstripSlashes s ≠ "") :
    osta_main [prog, s] urlopen fetch files
      = (match check_url urlopen (base_url ++ lstripSlashes s) with
         | .exitedHttpError =>
           ⟨[base_url ++ lstripSlashes s], [], files, 0, .preflightExit⟩
         | .raisedNetError =>
           ⟨[base_url ++ lstripSlashes s], [], files, 1, .preflightCrash⟩
         | .passed =>
           ⟨[base_url ++ lstripSlashes s],
            (scrape_product_category fetch (base_url ++ lstripSlashes s)).1,
            run_with_sink fetch (base_url ++ lstripSlashes s) "products.json" files,
            match (scrape_product_category fetch (base_url ++ lstripSlashes s)).2 with
            | .ok _ => 0 | .error _ => 1,
            match (scrape_product_category fetch (base_url ++ lstripSlashes s)).2 with
            | .ok _ => .completed | .error _ => .scrapeCrash⟩) := by
  simp only [osta_main, List.length_cons, List.length_nil, List.getD_cons_succ,
    List.getD_cons_zero]
  norm_num
  exact fun h => absurd h hcat

/-- Shape of a run with an explicit output filename (third argument and
beyond): as `osta_main_two` but writing to `out`. -/
theorem osta_main_more (prog s out : String) (rest : List String)
    (urlopen : String → UrlOpenResult)
    (fetch : String → Except ScrapeError Node) (files : String → Option String)
    (hcat : lstripSlashes s ≠ "") :
    osta_main (prog :: s :: out :: rest) urlopen fetch files
      = (match check_url urlopen (base_url ++ lstripSlashes s) with
         | .exitedHttpError =>
           ⟨[base_url ++ lstripSlashes s], [], files, 0, .preflightExit⟩
         | .raisedNetError =>
           ⟨[base_url ++ lstripSlashes s], [], files, 1, .preflightCrash⟩
         | .passed =>
           ⟨[base_url ++ lstripSlashes s],
            (scrape_product_category fetch (base_url ++ lstripSlashes s)).1,
            run_with_sink fetch (base_url ++ lstripSlashes s) out files,
            match (scrape_product_category fetch (base_url ++ lstripSlashes s)).2 with
            | .ok _ => 0 | .error _ => 1,
            match (scrape_product_category fetch (base_url ++ lstripSlashes s)).2 with
            | .ok _ => .completed | .error _ => .scrapeCrash⟩) := by
  simp only [osta_main, List.length_cons, List.length_nil, List.getD_cons_succ,
    List.getD_cons_zero]
  norm_num
  exact fun h => absurd h hcat

/-- Writing the same records to the same destination twice leaves the file
system where one write left it: the write depends only on the records, never
on the previous content. -/
theorem run_with_sink_idem (fetch : String → Except ScrapeError Node)
    (category_url filename : String) (files : String → Option String) :
    run_with_sink fetch category_url filename
        (run_with_sink fetch category_url filename files)
      = run_with_sink fetch category_url filename files := by
  unfold run_with_sink
  cases h : (scrape_product_category fetch category_url).2 with
  | error e => rfl
  | ok l =>
    funext n
    unfold write_product_list_to_json_file
    by_cases hn : n = filename <;> simp [hn]

/-- Claim C5: when the pre-flight `urlopen` of the base category URL raises an
HTTP error status, `check_url` prints its diagnostic and `sys.exit()`s: the
process ends with the success exit code 0, outcome `preflightExit`, a single
urlopen call, zero listing-page fetches (`requests.get` is never reached) and
the file system untouched. (Status codes appear only in the `UrlOpenResult`
consumed here: the listing-page fetch oracle carries none, mirroring that
`requests.get` responses are used whatever their status.) -/
theorem preflight_http_error_halts (prog s : String) (rest : List String)
    (urlopen : String → UrlOpenResult) (fetch : String → Except ScrapeError Node)
    (files : String → Option String) (c : Nat)
    (hcat : lstripSlashes s ≠ "")
    (hurl : urlopen (base_url ++ lstripSlashes s) = .httpError c) :
    osta_main (prog :: s :: rest) urlopen fetch files
      = ⟨[base_url ++ lstripSlashes s], [], files, 0, .preflightExit⟩ := by
  have hcheck : check_url urlopen (base_url ++ lstripSlashes s) = .exitedHttpError := by
    simp [check_url, hurl]
  cases rest with
  | nil => rw [osta_main_two prog s urlopen fetch files hcat, hcheck]
  | cons out rest2 =>
    rw [osta_main_more prog s out rest2 urlopen fetch files hcat, hcheck]

/-- Witness for C5: a 404 on the pre-flight check of category `badcat`
terminates the run with no listing-page fetch and no file written. -/
theorem preflight_http_error_halts_witness :
    osta_main ["scraper.py", "badcat"] (fun _ => .httpError 404) fetchDown noFiles
      = ⟨["https://www.osta.ee/kategooria/badcat"], [], noFiles, 0, .preflightExit⟩ :=
  (preflight_http_error_halts "scraper.py" "badcat" []
    (fun _ => .httpError 404) fetchDown noFiles 404 (by decide) rfl).trans (by rfl)

/-- The files component of a run with a nonempty category: unchanged unless
the pre-flight check passes, in which case it is the sink composition with the
chosen output filename. -/
theorem osta_main_files_eq (prog s : String) (rest : List String)
    (urlopen : String → UrlOpenResult) (fetch : String → Except ScrapeError Node)
    (files : String → Option String)
    (hcat : lstripSlashes s ≠ "") :
    (osta_main (prog :: s :: rest) urlopen fetch files).files
      = (match check_url urlopen (base_url ++ lstripSlashes s) with
         | .passed => run_with_sink fetch (base_url ++ lstripSlashes s)
             (rest.getD 0 "products.json") files
         | .exitedHttpError => files
         | .raisedNetError => files) := by
  cases rest with
  | nil =>
    rw [osta_main_two prog s urlopen fetch files hcat]
    cases check_url urlopen (base_url ++ lstripSlashes s) <;> rfl
  | cons out rest2 =>
    rw [osta_main_more prog s out rest2 urlopen fetch files hcat]
    cases check_url urlopen (base_url ++ lstripSlashes s) <;> rfl

/-- Claim C7: the pipeline from fetched page contents to serialized output is
deterministic, so running the whole script twice against an unchanged network
(same `urlopen` and `fetch` oracles) leaves the file system exactly where the
first run left it — in particular the output file contents are identical. -/
theorem harvester_idempotent (argv : List String) (urlopen : String → UrlOpenResult)
    (fetch : String → Except ScrapeError Node) (files : String → Option String) :
    (osta_main argv urlopen fetch (osta_main argv urlopen fetch files).files).files
      = (osta_main argv urlopen fetch files).files := by
  cases argv with
  | nil => rfl
  | cons prog argtail =>
    cases argtail with
    | nil => rfl
    | cons s rest =>
      by_cases hcat : lstripSlashes s = ""
      · rw [osta_main_cons_usage prog s rest urlopen fetch files hcat]
        rw [osta_main_cons_usage prog s rest urlopen fetch files hcat]
      · rw [osta_main_files_eq prog s rest urlopen fetch
          (osta_main (prog :: s :: rest) urlopen fetch files).files hcat,
          osta_main_files_eq prog s rest urlopen fetch files hcat]
        cases check_url urlopen (base_url ++ lstripSlashes s) with
        | passed =>
          exact run_with_sink_idem fetch (base_url ++ lstripSlashes s)
            (rest.getD 0 "products.json") files
        | exitedHttpError => rfl
        | raisedNetError => rfl

/-- Claim C10: a category argument consisting only of slashes strips to the
empty string, so the run takes exactly the usage path of an absent argument:
usage hint, no urlopen call, no fetch, files untouched, exit code 0 — the
same `MainResult` as running with no category argument at all. -/
theorem slash_only_category_usage (prog s : String) (rest : List String)
    (urlopen : String → UrlOpenResult) (fetch : String → Except ScrapeError Node)
    (files : String → Option String)
    (h : ∀ c ∈ s.data, c = '/') :
    osta_main (prog :: s :: rest) urlopen fetch files = ⟨[], [], files, 0, .usage⟩
    ∧ osta_main (prog :: s :: rest) urlopen fetch files
      = osta_main [prog] urlopen fetch files := by
  have hcat : lstripSlashes s = "" := by
    have hnil : s.data.dropWhile (fun c => c = '/') = [] :=
      List.dropWhile_eq_nil_iff.mpr (fun x hx => by simp [h x hx])
    simp only [lstripSlashes, hnil]
  refine ⟨osta_main_cons_usage prog s rest urlopen fetch files hcat, ?_⟩
  rw [osta_main_cons_usage prog s rest urlopen fetch files hcat,
    osta_main_no_category prog urlopen fetch files]

/-- Witness for C10: the category `"///"` is treated as absent. -/
theorem slash_only_category_usage_witness :
    osta_main ["scraper.py", "///"] (fun _ => .ok 200) fetchDown noFiles
      = ⟨[], [], noFiles, 0, .usage⟩
    ∧ osta_main ["scraper.py", "///"] (fun _ => .ok 200) fetchDown noFiles
      = osta_main ["scraper.py"] (fun _ => .ok 200) fetchDown noFiles :=
  slash_only_category_usage "scraper.py" "///" [] (fun _ => .ok 200) fetchDown noFiles
    (by decide)

/-- Claim C8: the CLI contract. (1) With no category argument the program
prints the usage hint and falls off the end: no urlopen call, no fetch, files
untouched, exit code 0 — and (3) a fully successful run also exits with 0, so
the usage path sets no distinct error code. (2) Leading slashes of the
category argument are stripped: a `"/" ++ s` argument behaves exactly like
`s`. (4) With two arguments the output filename defaults to `products.json`;
(5) a third argument is used as the output filename. -/
theorem cli_argument_contract :
    (∀ (prog : String) (urlopen : String → UrlOpenResult)
        (fetch : String → Except ScrapeError Node) (files : String → Option String),
      osta_main [prog] urlopen fetch files = ⟨[], [], files, 0, .usage⟩)
    ∧ (∀ (prog s : String) (rest : List String) (urlopen : String → UrlOpenResult)
        (fetch : String → Except ScrapeError Node) (files : String → Option String),
      osta_main (prog :: ("/" ++ s) :: rest) urlopen fetch files
        = osta_main (prog :: s :: rest) urlopen fetch files)
    ∧ (∀ (argv : List String) (urlopen : String → UrlOpenResult)
        (fetch : String → Except ScrapeError Node) (files : String → Option String),
      (osta_main argv urlopen fetch files).outcome = .completed →
      (osta_main argv urlopen fetch files).exitCode = 0)
    ∧ (∀ (prog s : String) (urlopen : String → UrlOpenResult)
        (fetch : String → Except ScrapeError Node) (files : String → Option String)
        (code : Nat),
      lstripSlashes s ≠ "" →
      urlopen (base_url ++ lstripSlashes s) = .ok code →
      (osta_main [prog, s] urlopen fetch files).files
        = run_with_sink fetch (base_url ++ lstripSlashes s) "products.json" files)
    ∧ (∀ (prog s out : String) (rest : List String) (urlopen : String → UrlOpenResult)
        (fetch : String → Except ScrapeError Node) (files : String → Option String)
        (code : Nat),
      lstripSlashes s ≠ "" →
      urlopen (base_url ++ lstripSlashes s) = .ok code →
      (osta_main (prog :: s :: out :: rest) urlopen fetch files).files
        = run_with_sink fetch (base_url ++ lstripSlashes s) out files) := by
  refine ⟨?_, ?_, ?_, ?_, ?_⟩
  · intro prog urlopen fetch files
    exact osta_main_no_category prog urlopen fetch files
  · intro prog s rest urlopen fetch files
    have hd : ("/" ++ s).data = '/' :: s.data := by
      rw [String.data_append]
      rfl
    have hl : lstripSlashes ("/" ++ s) = lstripSlashes s := by
      simp [lstripSlashes, hd, List.dropWhile_cons]
    simp only [osta_main, List.length_cons, List.getD_cons_succ,
      List.getD_cons_zero, hl]
  · intro argv urlopen fetch files h
    cases argv with
    | nil => simp [osta_main] at h
    | cons prog argtail =>
      cases argtail with
      | nil => simp [osta_main] at h
      | cons s rest =>
        by_cases hcat : lstripSlashes s = ""
        · rw [osta_main_cons_usage prog s rest urlopen fetch files hcat] at h
          simp at h
        · cases rest with
          | nil =>
            cases hcheck : check_url urlopen (base_url ++ lstripSlashes s) with
            | exitedHttpError =>
              rw [osta_main_two prog s urlopen fetch files hcat, hcheck] at h
              exact MainOutcome.noConfusion
                (show MainOutcome.preflightExit = MainOutcome.completed from h)
            | raisedNetError =>
              rw [osta_main_two prog s urlopen fetch files hcat, hcheck] at h
              exact MainOutcome.noConfusion
                (show MainOutcome.preflightCrash = MainOutcome.completed from h)
            | passed =>
              rw [osta_main_two prog s urlopen fetch files hcat, hcheck] at h ⊢
              cases hrun : (scrape_product_category fetch (base_url ++ lstripSlashes s)).2 with
              | ok l => rfl
              | error e =>
                rw [hrun] at h
                exact MainOutcome.noConfusion
                  (show MainOutcome.scrapeCrash = MainOutcome.completed from h)
          | cons out rest2 =>
            cases hcheck : check_url urlopen (base_url ++ lstripSlashes s) with
            | exitedHttpError =>
              rw [osta_main_more prog s out rest2 urlopen fetch files hcat, hcheck] at h
              exact MainOutcome.noConfusion
                (show MainOutcome.preflightExit = MainOutcome.completed from h)
            | raisedNetError =>
              rw [osta_main_more prog s out rest2 urlopen fetch files hcat, hcheck] at h
              exact MainOutcome.noConfusion
                (show MainOutcome.preflightCrash = MainOutcome.completed from h)
            | passed =>
              rw [osta_main_more prog s out rest2 urlopen fetch files hcat, hcheck] at h ⊢
              cases hrun : (scrape_product_category fetch (base_url ++ lstripSlashes s)).2 with
              | ok l => rfl
              | error e =>
                rw [hrun] at h
                exact MainOutcome.noConfusion
                  (show MainOutcome.scrapeCrash = MainOutcome.completed from h)
  · intro prog s urlopen fetch files code hcat hurl
    have hcheck : check_url urlopen (base_url ++ lstripSlashes s) = .passed := by
      simp [check_url, hurl]
    rw [osta_main_two prog s urlopen fetch files hcat, hcheck]
  · intro prog s out rest urlopen fetch files code hcat hurl
    have hcheck : check_url urlopen (base_url ++ lstripSlashes s) = .passed := by
      simp [check_url, hurl]
    rw [osta_main_more prog s out rest urlopen fetch files hcat, hcheck]

/-- Witness for C8: a missing category prints usage with exit code 0 and no
network call; with a category and an OK pre-flight, the default destination
`products.json` receives the write. -/
theorem cli_argument_contract_witness :
    osta_main ["scraper.py"] (fun _ => .ok 200) fetchDown noFiles
      = ⟨[], [], noFiles, 0, .usage⟩
    ∧ (osta_main ["scraper.py", "/arvutid"] (fun _ => .ok 200) fetchDown noFiles)
      = (osta_main ["scraper.py", "arvutid"] (fun _ => .ok 200) fetchDown noFiles)
    ∧ (osta_main ["scraper.py", "arvutid"] (fun _ => .ok 200) fetchDown noFiles).files
      = run_with_sink fetchDown "https://www.osta.ee/kategooria/arvutid"
          "products.json" noFiles := by
  refine ⟨cli_argument_contract.1 "scraper.py" (fun _ => .ok 200) fetchDown noFiles,
    cli_argument_contract.2.1 "scraper.py" "arvutid" [] (fun _ => .ok 200) fetchDown noFiles,
    (cli_argument_contract.2.2.2.1 "scraper.py" "arvutid" (fun _ => .ok 200) fetchDown
      noFiles 200 (by decide) rfl).trans (by rfl)⟩
